import Mathlib

/-!
Shallow embedding of the deployer repository's core:
the resource-topology-exporter manifest set (pkg/manifests/rte/rte.go)
and the deploy/remove command orchestration (pkg/commands/deploy.go).

Go pointer fields are embedded as Option values (none = nil pointer);
a nil-pointer dereference is embedded as Option-bind failure, so a Go
function that can panic returns Option here. Machine state that the
code only threads through (API helpers, loggers) is dropped; wait
closures are embedded as tagged wait conditions capturing exactly the
data the Go closure captures.
-/

/-- Platform enumeration from pkg/deployer/platform. -/
inductive Platform where
  | Unknown
  | Kubernetes
  | OpenShift
deriving DecidableEq, Repr

/-- Namespace object (corev1.Namespace); only the fields the embedded code touches. -/
structure NamespaceObj where
  name : String
deriving DecidableEq, Repr

/-- ServiceAccount object (corev1.ServiceAccount). The Go field Namespace is `nspace` here. -/
structure ServiceAccountObj where
  name : String
  nspace : String := ""
deriving DecidableEq, Repr

/-- Role object (rbacv1.Role). -/
structure RoleObj where
  name : String
  nspace : String := ""
deriving DecidableEq, Repr

/-- Subject of a role binding (rbacv1.Subject). -/
structure SubjectObj where
  kind : String := "ServiceAccount"
  name : String := ""
  nspace : String := ""
deriving DecidableEq, Repr

/-- RoleBinding object (rbacv1.RoleBinding). -/
structure RoleBindingObj where
  name : String
  nspace : String := ""
  subjects : List SubjectObj := []
deriving DecidableEq, Repr

/-- ConfigMap object (corev1.ConfigMap); `data` maps file names to payloads. -/
structure ConfigMapObj where
  kind : String := ""
  apiVersion : String := ""
  name : String
  nspace : String := ""
  data : List (String × String) := []
deriving DecidableEq, Repr

/-- DaemonSet object (appsv1.DaemonSet); `serviceAccountName` is
Spec.Template.Spec.ServiceAccountName. `pullIfNotPresent` and `configMapName`
record the patches the external daemon-set updater applies to the workload spec. -/
structure DaemonSetObj where
  name : String
  nspace : String := ""
  serviceAccountName : String := ""
  pullIfNotPresent : Bool := false
  configMapName : Option String := none
deriving DecidableEq, Repr

/-- Manifests struct from rte.go. Pointer-valued object fields are Options;
`nspace` and `serviceAccount` are the internal lowercase fields. -/
structure Manifests where
  Namespace : Option NamespaceObj := none
  ServiceAccount : Option ServiceAccountObj := none
  Role : Option RoleObj := none
  RoleBinding : Option RoleBindingObj := none
  ConfigMap : Option ConfigMapObj := none
  DaemonSet : Option DaemonSetObj := none
  plat : Platform
  nspace : String := ""
  serviceAccount : String := ""
deriving DecidableEq, Repr

/-- Constant namespaceOCP from rte.go. -/
def namespaceOCP : String := "openshift-monitoring"

/-- Constant serviceAccountOCP from rte.go. -/
def serviceAccountOCP : String := "node-exporter"

/-- Clone from rte.go: copies the internal fields and Role, RoleBinding,
DaemonSet unconditionally, ServiceAccount only on the Kubernetes platform,
Namespace only when non-nil. The ConfigMap field is never assigned, so the
clone's ConfigMap stays nil. DeepCopy on values is the value itself. -/
def Manifests.Clone (mf : Manifests) : Manifests :=
  let ret : Manifests :=
    { plat := mf.plat
      nspace := mf.nspace
      serviceAccount := mf.serviceAccount
      Role := mf.Role
      RoleBinding := mf.RoleBinding
      DaemonSet := mf.DaemonSet }
  let ret := if mf.plat = Platform.Kubernetes then
    { ret with ServiceAccount := mf.ServiceAccount } else ret
  let ret := if mf.Namespace ≠ none then
    { ret with Namespace := mf.Namespace } else ret
  ret

/-- UpdateOptions from rte.go. -/
structure UpdateOptions where
  ConfigData : String := ""
  PullIfNotPresent : Bool := false
deriving DecidableEq, Repr

/-- createConfigMap from rte.go: a ConfigMap named rte-config whose data maps
the fixed file name config.yaml to the supplied payload. -/
def createConfigMap (nspace : String) (configData : String) : ConfigMapObj :=
  { kind := "ConfigMap"
    apiVersion := "v1"
    name := "rte-config"
    nspace := nspace
    data := [("config.yaml", configData)] }

/-- Modelled from the spec: manifests.UpdateRoleBinding is repository code not
under src. The spec says the service-account name is propagated onto the
generated role binding subject and the namespace onto every namespace-scoped
child, so the binding's subjects get the given name and namespace. -/
def UpdateRoleBinding (rb : RoleBindingObj) (serviceAccount : String) (ns : String) :
    RoleBindingObj :=
  { rb with subjects := rb.subjects.map fun s => { s with name := serviceAccount, nspace := ns } }

/-- Modelled from the spec: manifests.UpdateResourceTopologyExporterDaemonSet is
repository code not under src. The spec says the image-pull-if-absent flag is
applied to the workload spec and the workload consumes the config payload when
present; it gives no effect on any other object, so only the daemon set is
changed. -/
def UpdateResourceTopologyExporterDaemonSet (plat : Platform) (ds : DaemonSetObj)
    (cm : Option ConfigMapObj) (pullIfNotPresent : Bool) : DaemonSetObj :=
  let _ := plat
  { ds with pullIfNotPresent := pullIfNotPresent
            configMapName := cm.map fun c => c.name }

/-- Update from rte.go. The Go statement ret.ServiceAccount.Namespace = mf.namespace
dereferences the ServiceAccount pointer unconditionally; a nil pointer there (and at
the later DaemonSet, Role and RoleBinding dereferences) panics, embedded as none. -/
def Manifests.Update (mf : Manifests) (options : UpdateOptions) : Option Manifests := do
  let ret := mf.Clone
  let sa ← ret.ServiceAccount
  let ret := { ret with ServiceAccount := some { sa with nspace := mf.nspace } }
  let ret := if options.ConfigData.length > 0 then
    { ret with ConfigMap := some (createConfigMap mf.nspace options.ConfigData) } else ret
  let ds ← ret.DaemonSet
  let ds := { ds with nspace := mf.nspace, serviceAccountName := mf.serviceAccount }
  let role ← ret.Role
  let role := { role with nspace := mf.nspace }
  let rb ← ret.RoleBinding
  let rb := UpdateRoleBinding rb mf.serviceAccount mf.nspace
  let ds := UpdateResourceTopologyExporterDaemonSet ret.plat ds ret.ConfigMap
    options.PullIfNotPresent
  pure { ret with Role := some role, RoleBinding := some rb, DaemonSet := some ds }

/-- Element of the object lists returned by ToObjects (client.Object values in Go);
each constructor carries the possibly-nil pointer it wraps. -/
inductive ClientObject where
  | nsO (o : Option NamespaceObj)
  | saO (o : Option ServiceAccountObj)
  | roleO (o : Option RoleObj)
  | rbO (o : Option RoleBindingObj)
  | cmO (o : Option ConfigMapObj)
  | dsO (o : Option DaemonSetObj)
deriving DecidableEq, Repr

/-- True exactly on Namespace entries. -/
def ClientObject.isNs : ClientObject → Bool
  | ClientObject.nsO _ => true
  | _ => false

/-- True exactly on ServiceAccount entries. -/
def ClientObject.isSa : ClientObject → Bool
  | ClientObject.saO _ => true
  | _ => false

/-- ToObjects from rte.go: starts with Role and RoleBinding, appends the
ConfigMap when non-nil, appends the DaemonSet, then prepends the Namespace when
non-nil and finally prepends the ServiceAccount on the Kubernetes platform. -/
def Manifests.ToObjects (mf : Manifests) : List ClientObject :=
  let objs := [ClientObject.roleO mf.Role, ClientObject.rbO mf.RoleBinding]
  let objs := if mf.ConfigMap ≠ none then objs ++ [ClientObject.cmO mf.ConfigMap] else objs
  let objs := objs ++ [ClientObject.dsO mf.DaemonSet]
  let objs := if mf.Namespace ≠ none then ClientObject.nsO mf.Namespace :: objs else objs
  if mf.plat = Platform.Kubernetes then ClientObject.saO mf.ServiceAccount :: objs else objs

/-- Modelled from the spec: the wait closures of pkg/deployer/wait are
repository code not under src; following the spec's closed condition set, a
wait is a tagged condition capturing the object the Go closure captures. -/
inductive WaitCond where
  | PodsToBeRunningByRegex (ds : Option DaemonSetObj)
  | PodsToBeGoneByRegex (ds : Option DaemonSetObj)
  | NamespaceToBeGone (ns : Option NamespaceObj)
deriving DecidableEq, Repr

/-- WaitableObject from pkg/deployer: an object paired with an optional wait. -/
structure WaitableObject where
  Obj : ClientObject
  Wait : Option WaitCond := none
deriving DecidableEq, Repr

/-- ToCreatableObjects from rte.go: Role, RoleBinding, DaemonSet (the only
entry with a wait: pods running matched by regex); the ConfigMap is prepended
when non-nil; on Kubernetes the Namespace and ServiceAccount are prepended. -/
def Manifests.ToCreatableObjects (mf : Manifests) : List WaitableObject :=
  let objs : List WaitableObject := [
    { Obj := ClientObject.roleO mf.Role },
    { Obj := ClientObject.rbO mf.RoleBinding },
    { Obj := ClientObject.dsO mf.DaemonSet
      Wait := some (WaitCond.PodsToBeRunningByRegex mf.DaemonSet) }]
  let objs := if mf.ConfigMap ≠ none then
    { Obj := ClientObject.cmO mf.ConfigMap } :: objs else objs
  if mf.plat = Platform.Kubernetes then
    { Obj := ClientObject.nsO mf.Namespace } ::
    { Obj := ClientObject.saO mf.ServiceAccount } :: objs
  else objs

/-- ToDeletableObjects from rte.go: on Kubernetes only the Namespace with a
namespace-gone wait; otherwise the DaemonSet (pods-gone wait) then Role,
RoleBinding and, when non-nil, the ConfigMap appended last, none with a wait. -/
def Manifests.ToDeletableObjects (mf : Manifests) : List WaitableObject :=
  if mf.plat = Platform.Kubernetes then
    [{ Obj := ClientObject.nsO mf.Namespace
       Wait := some (WaitCond.NamespaceToBeGone mf.Namespace) }]
  else
    let objs : List WaitableObject := [
      { Obj := ClientObject.dsO mf.DaemonSet
        Wait := some (WaitCond.PodsToBeGoneByRegex mf.DaemonSet) },
      { Obj := ClientObject.roleO mf.Role },
      { Obj := ClientObject.rbO mf.RoleBinding }]
    if mf.ConfigMap ≠ none then objs ++ [{ Obj := ClientObject.cmO mf.ConfigMap }] else objs

/-- Results of the template loaders of pkg/manifests (Namespace, ServiceAccount,
Role, RoleBinding, DaemonSet for the resource-topology-exporter component).
They are external collaborators of the embedded code, so each outcome is an
arbitrary parameter: none embeds a load error. -/
structure TemplateStore where
  nsTemplate : Option NamespaceObj
  saTemplate : Option ServiceAccountObj
  roleTemplate : Option RoleObj
  rbTemplate : Option RoleBindingObj
  dsTemplate : Option DaemonSetObj
deriving DecidableEq, Repr

/-- GetManifests from rte.go: on Kubernetes loads Namespace and ServiceAccount
templates and records their names as the internal namespace/service-account;
otherwise uses the fixed OCP names and owns neither object. Then loads Role,
RoleBinding and DaemonSet. A failed template load aborts (Go returns the error;
callers discard the partial set). -/
def GetManifests (ts : TemplateStore) (plat : Platform) : Option Manifests := do
  let base ←
    if plat = Platform.Kubernetes then do
      let ns ← ts.nsTemplate
      let sa ← ts.saTemplate
      pure { plat := plat
             Namespace := some ns
             nspace := ns.name
             ServiceAccount := some sa
             serviceAccount := sa.name : Manifests }
    else
      pure { plat := plat
             nspace := namespaceOCP
             serviceAccount := serviceAccountOCP : Manifests }
  let role ← ts.roleTemplate
  let rb ← ts.rbTemplate
  let ds ← ts.dsTemplate
  pure { base with Role := some role, RoleBinding := some rb, DaemonSet := some ds }

/-- GetManifestsForNamespace from rte.go: the internal namespace is the given
string; on Kubernetes the ServiceAccount template is loaded (no Namespace
object is ever set), otherwise the fixed OCP service-account name is used.
Then Role, RoleBinding and DaemonSet are loaded. -/
def GetManifestsForNamespace (ts : TemplateStore) (plat : Platform) (nsName : String) :
    Option Manifests := do
  let base ←
    if plat = Platform.Kubernetes then do
      let sa ← ts.saTemplate
      pure { plat := plat
             nspace := nsName
             ServiceAccount := some sa
             serviceAccount := sa.name : Manifests }
    else
      pure { plat := plat
             nspace := nsName
             serviceAccount := serviceAccountOCP : Manifests }
  let role ← ts.roleTemplate
  let rb ← ts.rbTemplate
  let ds ← ts.dsTemplate
  pure { base with Role := some role, RoleBinding := some rb, DaemonSet := some ds }

/-- Subsystems orchestrated by the deploy/remove commands. -/
inductive Subsystem where
  | API
  | Updater
  | Scheduler
deriving DecidableEq, Repr

/-- Observable events of one command invocation: a subsystem deploy call, a
subsystem remove call, or the log line the remove command prints on a remove
error before continuing. -/
inductive Event where
  | deployCall (s : Subsystem)
  | removeCall (s : Subsystem)
  | logRemoveError (s : Subsystem)
deriving DecidableEq, Repr

/-- True exactly on remove-call events. -/
def Event.isRemoveCall : Event → Bool
  | Event.removeCall _ => true
  | _ => false

/-- Error returned by a command: the fixed cannot-autodetect-platform error, or
the error value a subsystem call returned, surfaced unchanged. -/
inductive CommandError (E : Type) where
  | unknownPlatform
  | subsystemFailure (e : E)
deriving DecidableEq, Repr

/-- Outcomes of the external subsystem Deploy/Remove calls (pkg/deployer/api,
updater and sched are external collaborators of the embedded command code);
each call's result is an arbitrary parameter. -/
structure ClusterOps (E : Type) where
  apiDeploy : Except E Unit
  updaterDeploy : Except E Unit
  schedDeploy : Except E Unit
  apiRemove : Except E Unit
  updaterRemove : Except E Unit
  schedRemove : Except E Unit

/-- Outcome of the remove call of a given subsystem. -/
def ClusterOps.removeOf {E : Type} (ops : ClusterOps E) : Subsystem → Except E Unit
  | Subsystem.API => ops.apiRemove
  | Subsystem.Updater => ops.updaterRemove
  | Subsystem.Scheduler => ops.schedRemove

/-- True exactly on error outcomes. -/
def isErr {E : Type} : Except E Unit → Bool
  | Except.error _ => true
  | Except.ok _ => false

/-- deployOnCluster from deploy.go: after the platform check, api.Deploy, then
updater.Deploy, then sched.Deploy, returning the first error unchanged and
skipping every later call; the event list records the calls made. -/
def deployOnCluster {E : Type} (discovered : Platform) (ops : ClusterOps E) :
    List Event × Except (CommandError E) Unit :=
  if discovered = Platform.Unknown then
    ([], Except.error CommandError.unknownPlatform)
  else
    match ops.apiDeploy with
    | Except.error e =>
        ([Event.deployCall Subsystem.API],
         Except.error (CommandError.subsystemFailure e))
    | Except.ok _ =>
      match ops.updaterDeploy with
      | Except.error e =>
          ([Event.deployCall Subsystem.API, Event.deployCall Subsystem.Updater],
           Except.error (CommandError.subsystemFailure e))
      | Except.ok _ =>
        match ops.schedDeploy with
        | Except.error e =>
            ([Event.deployCall Subsystem.API, Event.deployCall Subsystem.Updater,
              Event.deployCall Subsystem.Scheduler],
             Except.error (CommandError.subsystemFailure e))
        | Except.ok _ =>
            ([Event.deployCall Subsystem.API, Event.deployCall Subsystem.Updater,
              Event.deployCall Subsystem.Scheduler],
             Except.ok ())

/-- RunE of NewRemoveCommand from deploy.go: after the platform check,
sched.Remove, updater.Remove and api.Remove are each called; an error outcome
is only logged (the following calls still happen) and the command returns nil. -/
def removeOnCluster {E : Type} (discovered : Platform) (ops : ClusterOps E) :
    List Event × Except (CommandError E) Unit :=
  if discovered = Platform.Unknown then
    ([], Except.error CommandError.unknownPlatform)
  else
    let schedEvents := Event.removeCall Subsystem.Scheduler ::
      (match ops.schedRemove with
        | Except.error _ => [Event.logRemoveError Subsystem.Scheduler]
        | Except.ok _ => [])
    let updaterEvents := Event.removeCall Subsystem.Updater ::
      (match ops.updaterRemove with
        | Except.error _ => [Event.logRemoveError Subsystem.Updater]
        | Except.ok _ => [])
    let apiEvents := Event.removeCall Subsystem.API ::
      (match ops.apiRemove with
        | Except.error _ => [Event.logRemoveError Subsystem.API]
        | Except.ok _ => [])
    (schedEvents ++ updaterEvents ++ apiEvents, Except.ok ())

/-! Helper lemmas shared by the claim theorems. -/

/-- Clone in closed form: every field of the clone expressed from the source. -/
theorem Manifests.clone_eq (mf : Manifests) :
    mf.Clone =
      { plat := mf.plat
        nspace := mf.nspace
        serviceAccount := mf.serviceAccount
        Role := mf.Role
        RoleBinding := mf.RoleBinding
        DaemonSet := mf.DaemonSet
        Namespace := mf.Namespace
        ServiceAccount :=
          if mf.plat = Platform.Kubernetes then mf.ServiceAccount else none
        ConfigMap := none } := by
  rcases mf with ⟨ns, sa, role, rb, cm, ds, plat, nsp, san⟩
  cases plat <;> cases ns <;> simp [Manifests.Clone]

/-- Inversion of GetManifests on the Kubernetes platform. -/
theorem getManifests_kubernetes_eq (ts : TemplateStore) (mf : Manifests)
    (h : GetManifests ts Platform.Kubernetes = some mf) :
    ∃ ns sa role rb ds,
      ts.nsTemplate = some ns ∧ ts.saTemplate = some sa ∧
      ts.roleTemplate = some role ∧ ts.rbTemplate = some rb ∧ ts.dsTemplate = some ds ∧
      mf = { plat := Platform.Kubernetes
             Namespace := some ns
             nspace := ns.name
             ServiceAccount := some sa
             serviceAccount := sa.name
             Role := some role
             RoleBinding := some rb
             DaemonSet := some ds } := by
  rcases ts with ⟨tns, tsa, trole, trb, tds⟩
  cases tns <;> cases tsa <;> cases trole <;> cases trb <;> cases tds <;>
    first
      | exact Option.noConfusion (show (none : Option Manifests) = some mf from h)
      | · rename_i ns sa role rb ds
          refine ⟨ns, sa, role, rb, ds, rfl, rfl, rfl, rfl, rfl, ?_⟩
          injection (show some ({ plat := Platform.Kubernetes
                                  Namespace := some ns
                                  nspace := ns.name
                                  ServiceAccount := some sa
                                  serviceAccount := sa.name
                                  Role := some role
                                  RoleBinding := some rb
                                  DaemonSet := some ds } : Manifests) = some mf from h)
            with h2
          exact h2.symm

/-- Inversion of GetManifests on the OpenShift platform. -/
theorem getManifests_openshift_eq (ts : TemplateStore) (mf : Manifests)
    (h : GetManifests ts Platform.OpenShift = some mf) :
    ∃ role rb ds,
      ts.roleTemplate = some role ∧ ts.rbTemplate = some rb ∧ ts.dsTemplate = some ds ∧
      mf = { plat := Platform.OpenShift
             nspace := namespaceOCP
             serviceAccount := serviceAccountOCP
             Role := some role
             RoleBinding := some rb
             DaemonSet := some ds } := by
  rcases ts with ⟨tns, tsa, trole, trb, tds⟩
  cases trole <;> cases trb <;> cases tds <;>
    first
      | exact Option.noConfusion (show (none : Option Manifests) = some mf from h)
      | · rename_i role rb ds
          refine ⟨role, rb, ds, rfl, rfl, rfl, ?_⟩
          injection (show some ({ plat := Platform.OpenShift
                                  nspace := namespaceOCP
                                  serviceAccount := serviceAccountOCP
                                  Role := some role
                                  RoleBinding := some rb
                                  DaemonSet := some ds } : Manifests) = some mf from h)
            with h2
          exact h2.symm

/-- Inversion of GetManifestsForNamespace on the Kubernetes platform. -/
theorem getManifestsForNamespace_kubernetes_eq (ts : TemplateStore) (nsName : String)
    (mf : Manifests) (h : GetManifestsForNamespace ts Platform.Kubernetes nsName = some mf) :
    ∃ sa role rb ds,
      ts.saTemplate = some sa ∧
      ts.roleTemplate = some role ∧ ts.rbTemplate = some rb ∧ ts.dsTemplate = some ds ∧
      mf = { plat := Platform.Kubernetes
             nspace := nsName
             ServiceAccount := some sa
             serviceAccount := sa.name
             Role := some role
             RoleBinding := some rb
             DaemonSet := some ds } := by
  rcases ts with ⟨tns, tsa, trole, trb, tds⟩
  cases tsa <;> cases trole <;> cases trb <;> cases tds <;>
    first
      | exact Option.noConfusion (show (none : Option Manifests) = some mf from h)
      | · rename_i sa role rb ds
          refine ⟨sa, role, rb, ds, rfl, rfl, rfl, rfl, ?_⟩
          injection (show some ({ plat := Platform.Kubernetes
                                  nspace := nsName
                                  ServiceAccount := some sa
                                  serviceAccount := sa.name
                                  Role := some role
                                  RoleBinding := some rb
                                  DaemonSet := some ds } : Manifests) = some mf from h)
            with h2
          exact h2.symm

/-- Positive string length is the same as being non-empty. -/
theorem string_length_pos_iff (s : String) : 0 < s.length ↔ s ≠ "" := by
  rw [Nat.pos_iff_ne_zero]
  constructor
  · intro h he
    subst he
    exact h rfl
  · intro h hl
    apply h
    cases s with
    | mk data =>
      cases data with
      | nil => rfl
      | cons c cs => simp [String.length] at hl

/-! Concrete sample templates and manifest sets used by witnesses and
counterexamples. -/

/-- Sample namespace template. -/
def nsW : NamespaceObj := { name := "tas" }

/-- Sample service-account template. -/
def saW : ServiceAccountObj := { name := "rte" }

/-- Sample role template. -/
def roleW : RoleObj := { name := "rte" }

/-- Sample role-binding template. -/
def rbW : RoleBindingObj := { name := "rte", subjects := [{ name := "rte" }] }

/-- Sample daemon-set template. -/
def dsW : DaemonSetObj := { name := "resource-topology-exporter" }

/-- Sample template store with every template loading successfully. -/
def tsW : TemplateStore :=
  { nsTemplate := some nsW
    saTemplate := some saW
    roleTemplate := some roleW
    rbTemplate := some rbW
    dsTemplate := some dsW }

/-- Sample config map, as created for the payload string of the samples. -/
def cmW : ConfigMapObj := createConfigMap "tas" "resources: all"

/-- The manifest set GetManifests builds from the samples on Kubernetes. -/
def mfKW : Manifests :=
  { plat := Platform.Kubernetes
    Namespace := some nsW
    nspace := "tas"
    ServiceAccount := some saW
    serviceAccount := "rte"
    Role := some roleW
    RoleBinding := some rbW
    DaemonSet := some dsW }

/-- The manifest set GetManifests builds from the samples on OpenShift. -/
def mfVW : Manifests :=
  { plat := Platform.OpenShift
    nspace := namespaceOCP
    serviceAccount := serviceAccountOCP
    Role := some roleW
    RoleBinding := some rbW
    DaemonSet := some dsW }

/-- The Kubernetes sample set with a config map present. -/
def mfCW : Manifests := { mfKW with ConfigMap := some cmW }

/-- The OpenShift sample set with a config map present. -/
def mfCVW : Manifests := { mfVW with ConfigMap := some cmW }

/-! Claim theorems. -/

/-- C1: on the vanilla variant (OpenShift) the claim fails in the code: a set
built by GetManifests owns no ServiceAccount, Clone keeps the field nil, and
Update dereferences the nil pointer (embedded: Update returns none) for every
options record, instead of completing normally. -/
theorem update_nil_deref_on_vanilla (ts : TemplateStore) (mf : Manifests)
    (h : GetManifests ts Platform.OpenShift = some mf) (options : UpdateOptions) :
    mf.Update options = none := by
  obtain ⟨role, rb, ds, _, _, _, hmf⟩ := getManifests_openshift_eq ts mf h
  subst hmf
  rfl

/-- Witness for C1: a concrete OpenShift manifest set on which Update panics. -/
theorem update_nil_deref_on_vanilla_witness :
    GetManifests tsW Platform.OpenShift = some mfVW ∧
    mfVW.Update { ConfigData := "resources: all" } = none :=
  ⟨rfl, update_nil_deref_on_vanilla tsW mfVW rfl { ConfigData := "resources: all" }⟩

/-- C2 counterexample: a set whose ConfigMap is present, while its clone's
ConfigMap is nil — the clone does not hold an equal copy of every present
object. -/
theorem clone_drops_present_configmap :
    mfCW.ConfigMap = some cmW ∧ mfCW.Clone.ConfigMap = none ∧
    mfCW.Clone.ConfigMap ≠ mfCW.ConfigMap := by
  refine ⟨rfl, rfl, ?_⟩
  decide

/-- C2 (amended): Clone copies Role, RoleBinding, Workload, the internal
fields and the Namespace (when present) unchanged, copies the ServiceAccount
exactly when the platform is the managed variant (Kubernetes), and never
carries the ConfigMap over — the clone's ConfigData is always absent. -/
theorem clone_copies_owned_objects (mf : Manifests) :
    mf.Clone.Role = mf.Role ∧ mf.Clone.RoleBinding = mf.RoleBinding ∧
    mf.Clone.DaemonSet = mf.DaemonSet ∧ mf.Clone.Namespace = mf.Namespace ∧
    mf.Clone.ServiceAccount =
      (if mf.plat = Platform.Kubernetes then mf.ServiceAccount else none) ∧
    mf.Clone.ConfigMap = none ∧
    mf.Clone.plat = mf.plat ∧ mf.Clone.nspace = mf.nspace ∧
    mf.Clone.serviceAccount = mf.serviceAccount := by
  rw [Manifests.clone_eq mf]
  exact ⟨rfl, rfl, rfl, rfl, rfl, rfl, rfl, rfl, rfl⟩

/-- C3 counterexample: on a managed set owning both, ToObjects puts the
ServiceAccount before the Namespace, not the Namespace first as claimed. -/
theorem toObjects_sa_before_ns :
    mfCW.ToObjects =
      [ClientObject.saO (some saW), ClientObject.nsO (some nsW),
       ClientObject.roleO (some roleW), ClientObject.rbO (some rbW),
       ClientObject.cmO (some cmW), ClientObject.dsO (some dsW)] ∧
    mfCW.ToObjects ≠
      [ClientObject.nsO (some nsW), ClientObject.saO (some saW),
       ClientObject.roleO (some roleW), ClientObject.rbO (some rbW),
       ClientObject.cmO (some cmW), ClientObject.dsO (some dsW)] := by
  refine ⟨rfl, ?_⟩
  decide

/-- C3 (amended): ToObjects returns the owned objects in the fixed order
ServiceAccount first (on the managed variant), then Namespace (if present),
then Role, RoleBinding, ConfigData (if present), and the Workload last. -/
theorem toObjects_fixed_order (mf : Manifests) :
    mf.ToObjects =
      (if mf.plat = Platform.Kubernetes then [ClientObject.saO mf.ServiceAccount] else []) ++
      (if mf.Namespace ≠ none then [ClientObject.nsO mf.Namespace] else []) ++
      [ClientObject.roleO mf.Role, ClientObject.rbO mf.RoleBinding] ++
      (if mf.ConfigMap ≠ none then [ClientObject.cmO mf.ConfigMap] else []) ++
      [ClientObject.dsO mf.DaemonSet] := by
  rcases mf with ⟨ns, sa, role, rb, cm, ds, plat, nsp, san⟩
  cases plat <;> cases ns <;> cases cm <;> simp [Manifests.ToObjects]

/-- Sample subsystem outcomes: updater deploy fails, every remove fails. -/
def opsW : ClusterOps String :=
  { apiDeploy := Except.ok ()
    updaterDeploy := Except.error "updater deploy failed"
    schedDeploy := Except.ok ()
    apiRemove := Except.error "api remove failed"
    updaterRemove := Except.error "updater remove failed"
    schedRemove := Except.error "sched remove failed" }

/-- C4: once the platform is resolved, the remove command attempts all three
subsystem removals in the order Scheduler, Updater, API; an error outcome is
exactly matched by a logged line and never stops the run; the command result is
success whatever the outcomes. -/
theorem remove_attempts_all_and_succeeds {E : Type} (discovered : Platform)
    (ops : ClusterOps E) (h : discovered ≠ Platform.Unknown) :
    (removeOnCluster discovered ops).1.filter Event.isRemoveCall =
      [Event.removeCall Subsystem.Scheduler, Event.removeCall Subsystem.Updater,
       Event.removeCall Subsystem.API] ∧
    (∀ s : Subsystem,
      Event.logRemoveError s ∈ (removeOnCluster discovered ops).1 ↔
        isErr (ops.removeOf s) = true) ∧
    (removeOnCluster discovered ops).2 = Except.ok () := by
  rcases ops with ⟨ad, ud, sd, ar, ur, sr⟩
  unfold removeOnCluster
  rw [if_neg h]
  refine ⟨?_, ?_, rfl⟩
  · rcases sr with e | u <;> rcases ur with e2 | u2 <;> rcases ar with e3 | u3 <;>
      simp [Event.isRemoveCall]
  · intro s
    cases s <;>
      rcases sr with e | u <;> rcases ur with e2 | u2 <;> rcases ar with e3 | u3 <;>
        simp [ClusterOps.removeOf, isErr]

/-- Witness for C4: on the sample outcomes where every remove fails, all three
subsystems are still attempted in order, the updater failure is logged, and the
command reports success. -/
theorem remove_attempts_all_and_succeeds_witness :
    (removeOnCluster Platform.OpenShift opsW).1.filter Event.isRemoveCall =
      [Event.removeCall Subsystem.Scheduler, Event.removeCall Subsystem.Updater,
       Event.removeCall Subsystem.API] ∧
    (Event.logRemoveError Subsystem.Updater ∈ (removeOnCluster Platform.OpenShift opsW).1 ↔
      isErr (opsW.removeOf Subsystem.Updater) = true) ∧
    (removeOnCluster Platform.OpenShift opsW).2 = Except.ok () := by
  have h := remove_attempts_all_and_succeeds Platform.OpenShift opsW (by decide)
  exact ⟨h.1, h.2.1 Subsystem.Updater, h.2.2⟩

/-- C5: once the platform is resolved, the deploy command calls api.Deploy,
updater.Deploy and sched.Deploy strictly in that order, stops at the first
error and returns it unchanged (in particular an updater failure means
sched.Deploy is never called), and only a fully successful run reaches all
three. -/
theorem deploy_fail_fast {E : Type} (discovered : Platform) (ops : ClusterOps E)
    (h : discovered ≠ Platform.Unknown) :
    ((deployOnCluster discovered ops).2 = Except.ok () →
      (deployOnCluster discovered ops).1 =
        [Event.deployCall Subsystem.API, Event.deployCall Subsystem.Updater,
         Event.deployCall Subsystem.Scheduler]) ∧
    (∀ e : E, ops.apiDeploy = Except.error e →
      (deployOnCluster discovered ops).1 = [Event.deployCall Subsystem.API] ∧
      (deployOnCluster discovered ops).2 =
        Except.error (CommandError.subsystemFailure e)) ∧
    (∀ e : E, ops.apiDeploy = Except.ok () → ops.updaterDeploy = Except.error e →
      (deployOnCluster discovered ops).1 =
        [Event.deployCall Subsystem.API, Event.deployCall Subsystem.Updater] ∧
      (deployOnCluster discovered ops).2 =
        Except.error (CommandError.subsystemFailure e)) ∧
    (∀ e : E, ops.apiDeploy = Except.ok () → ops.updaterDeploy = Except.ok () →
      ops.schedDeploy = Except.error e →
      (deployOnCluster discovered ops).1 =
        [Event.deployCall Subsystem.API, Event.deployCall Subsystem.Updater,
         Event.deployCall Subsystem.Scheduler] ∧
      (deployOnCluster discovered ops).2 =
        Except.error (CommandError.subsystemFailure e)) := by
  rcases ops with ⟨ad, ud, sd, ar, ur, sr⟩
  unfold deployOnCluster
  rw [if_neg h]
  rcases ad with e1 | u1 <;> rcases ud with e2 | u2 <;> rcases sd with e3 | u3 <;>
    simp

/-- Witness for C5: on the sample outcomes where the updater deploy fails, the
scheduler is never attempted and the updater error is returned unchanged. -/
theorem deploy_fail_fast_witness :
    (deployOnCluster Platform.Kubernetes opsW).1 =
      [Event.deployCall Subsystem.API, Event.deployCall Subsystem.Updater] ∧
    (deployOnCluster Platform.Kubernetes opsW).2 =
      Except.error (CommandError.subsystemFailure "updater deploy failed") := by
  have h := deploy_fail_fast Platform.Kubernetes opsW (by decide)
  exact h.2.2.1 "updater deploy failed" rfl rfl

/-- C6: the creation sequence is Namespace, ServiceAccount, ConfigData (if
present), Role, RoleBinding, Workload on the managed variant, and ConfigData
(if present), Role, RoleBinding, Workload on the vanilla variant; only the
Workload entry carries a wait (pods running, matched by name pattern). -/
theorem to_creatable_order (mf : Manifests) :
    (mf.plat = Platform.Kubernetes →
      mf.ToCreatableObjects =
        [{ Obj := ClientObject.nsO mf.Namespace },
         { Obj := ClientObject.saO mf.ServiceAccount }] ++
        (if mf.ConfigMap ≠ none then [{ Obj := ClientObject.cmO mf.ConfigMap }] else []) ++
        [{ Obj := ClientObject.roleO mf.Role },
         { Obj := ClientObject.rbO mf.RoleBinding },
         { Obj := ClientObject.dsO mf.DaemonSet
           Wait := some (WaitCond.PodsToBeRunningByRegex mf.DaemonSet) }]) ∧
    (mf.plat = Platform.OpenShift →
      mf.ToCreatableObjects =
        (if mf.ConfigMap ≠ none then [{ Obj := ClientObject.cmO mf.ConfigMap }] else []) ++
        [{ Obj := ClientObject.roleO mf.Role },
         { Obj := ClientObject.rbO mf.RoleBinding },
         { Obj := ClientObject.dsO mf.DaemonSet
           Wait := some (WaitCond.PodsToBeRunningByRegex mf.DaemonSet) }]) := by
  rcases mf with ⟨ns, sa, role, rb, cm, ds, plat, nsp, san⟩
  constructor <;> intro hp <;> subst hp <;> cases cm <;>
    simp [Manifests.ToCreatableObjects]

/-- Witness for C6: the creation sequences of a managed sample set with a
config map and of a vanilla sample set without one. -/
theorem to_creatable_order_witness :
    mfCW.ToCreatableObjects =
      [{ Obj := ClientObject.nsO (some nsW) },
       { Obj := ClientObject.saO (some saW) },
       { Obj := ClientObject.cmO (some cmW) },
       { Obj := ClientObject.roleO (some roleW) },
       { Obj := ClientObject.rbO (some rbW) },
       { Obj := ClientObject.dsO (some dsW)
         Wait := some (WaitCond.PodsToBeRunningByRegex (some dsW)) }] ∧
    mfVW.ToCreatableObjects =
      [{ Obj := ClientObject.roleO (some roleW) },
       { Obj := ClientObject.rbO (some rbW) },
       { Obj := ClientObject.dsO (some dsW)
         Wait := some (WaitCond.PodsToBeRunningByRegex (some dsW)) }] := by
  have h1 := (to_creatable_order mfCW).1 rfl
  have h2 := (to_creatable_order mfVW).2 rfl
  exact ⟨h1, h2⟩

/-- C7: the deletion sequence on the managed variant is the Namespace alone
with a namespace-gone wait; on the vanilla variant it is the Workload first
with a pods-gone wait, then Role, RoleBinding and ConfigData (if present),
none of which carries a wait. -/
theorem to_deletable_order (mf : Manifests) :
    (mf.plat = Platform.Kubernetes →
      mf.ToDeletableObjects =
        [{ Obj := ClientObject.nsO mf.Namespace
           Wait := some (WaitCond.NamespaceToBeGone mf.Namespace) }]) ∧
    (mf.plat = Platform.OpenShift →
      mf.ToDeletableObjects =
        [{ Obj := ClientObject.dsO mf.DaemonSet
           Wait := some (WaitCond.PodsToBeGoneByRegex mf.DaemonSet) },
         { Obj := ClientObject.roleO mf.Role },
         { Obj := ClientObject.rbO mf.RoleBinding }] ++
        (if mf.ConfigMap ≠ none then [{ Obj := ClientObject.cmO mf.ConfigMap }] else [])) := by
  rcases mf with ⟨ns, sa, role, rb, cm, ds, plat, nsp, san⟩
  constructor <;> intro hp <;> subst hp <;> cases cm <;>
    simp [Manifests.ToDeletableObjects]

/-- Witness for C7: the deletion sequences of a managed sample set and of a
vanilla sample set with a config map. -/
theorem to_deletable_order_witness :
    mfKW.ToDeletableObjects =
      [{ Obj := ClientObject.nsO (some nsW)
         Wait := some (WaitCond.NamespaceToBeGone (some nsW)) }] ∧
    mfCVW.ToDeletableObjects =
      [{ Obj := ClientObject.dsO (some dsW)
         Wait := some (WaitCond.PodsToBeGoneByRegex (some dsW)) },
       { Obj := ClientObject.roleO (some roleW) },
       { Obj := ClientObject.rbO (some rbW) },
       { Obj := ClientObject.cmO (some cmW) }] := by
  have h1 := (to_deletable_order mfKW).1 rfl
  have h2 := (to_deletable_order mfCVW).2 rfl
  exact ⟨h1, h2⟩

/-- C8: a set built by GetManifests on the vanilla variant never produces a
Namespace or ServiceAccount entry in ToObjects; a set built on the managed
variant always owns both, and they occupy the first two positions of
ToObjects. -/
theorem platform_conditional_ownership (ts : TemplateStore) :
    (∀ mf : Manifests, GetManifests ts Platform.OpenShift = some mf →
      ∀ o ∈ mf.ToObjects, o.isNs = false ∧ o.isSa = false) ∧
    (∀ mf : Manifests, GetManifests ts Platform.Kubernetes = some mf →
      mf.Namespace.isSome = true ∧ mf.ServiceAccount.isSome = true ∧
      mf.ToObjects.take 2 =
        [ClientObject.saO mf.ServiceAccount, ClientObject.nsO mf.Namespace]) := by
  constructor
  · intro mf h o ho
    obtain ⟨role, rb, ds, _, _, _, hmf⟩ := getManifests_openshift_eq ts mf h
    subst hmf
    simp [Manifests.ToObjects] at ho
    rcases ho with h1 | h1 | h1 <;> subst h1 <;> exact ⟨rfl, rfl⟩
  · intro mf h
    obtain ⟨ns, sa, role, rb, ds, _, _, _, _, _, hmf⟩ := getManifests_kubernetes_eq ts mf h
    subst hmf
    exact ⟨rfl, rfl, rfl⟩

/-- Witness for C8: the sample vanilla set has neither entry anywhere in
ToObjects; the sample managed set has the ServiceAccount and Namespace as its
first two entries. -/
theorem platform_conditional_ownership_witness :
    (∀ o ∈ mfVW.ToObjects, o.isNs = false ∧ o.isSa = false) ∧
    (mfKW.Namespace.isSome = true ∧ mfKW.ServiceAccount.isSome = true ∧
      mfKW.ToObjects.take 2 =
        [ClientObject.saO (some saW), ClientObject.nsO (some nsW)]) := by
  have h := platform_conditional_ownership tsW
  exact ⟨h.1 mfVW rfl, h.2 mfKW rfl⟩

/-- C10: a set built by GetManifestsForNamespace on the managed variant owns a
ServiceAccount but no Namespace object, its internal namespace is the given
string, and its ToObjects list begins with the ServiceAccount and contains no
Namespace entry. -/
theorem manifests_for_namespace_no_namespace (ts : TemplateStore) (nsName : String)
    (mf : Manifests)
    (h : GetManifestsForNamespace ts Platform.Kubernetes nsName = some mf) :
    mf.ServiceAccount.isSome = true ∧ mf.Namespace = none ∧ mf.nspace = nsName ∧
    mf.ToObjects.head? = some (ClientObject.saO mf.ServiceAccount) ∧
    ∀ o ∈ mf.ToObjects, o.isNs = false := by
  obtain ⟨sa, role, rb, ds, _, _, _, _, hmf⟩ :=
    getManifestsForNamespace_kubernetes_eq ts nsName mf h
  subst hmf
  refine ⟨rfl, rfl, rfl, rfl, ?_⟩
  intro o ho
  simp [Manifests.ToObjects] at ho
  rcases ho with h1 | h1 | h1 | h1 <;> subst h1 <;> rfl

/-- Witness for C10: the sample managed set built for the namespace testns. -/
theorem manifests_for_namespace_no_namespace_witness :
    ∃ mf : Manifests,
      GetManifestsForNamespace tsW Platform.Kubernetes "testns" = some mf ∧
      (mf.ServiceAccount.isSome = true ∧ mf.Namespace = none ∧ mf.nspace = "testns" ∧
       mf.ToObjects.head? = some (ClientObject.saO mf.ServiceAccount) ∧
       ∀ o ∈ mf.ToObjects, o.isNs = false) := by
  refine ⟨{ plat := Platform.Kubernetes
            nspace := "testns"
            ServiceAccount := some saW
            serviceAccount := "rte"
            Role := some roleW
            RoleBinding := some rbW
            DaemonSet := some dsW }, rfl, ?_⟩
  exact manifests_for_namespace_no_namespace tsW "testns" _ rfl

/-- Inversion of Update: with a payload of positive length, the resulting set's
ConfigMap is the one createConfigMap builds in the source namespace. -/
theorem update_configmap_of_pos (mf : Manifests) (options : UpdateOptions) (ret : Manifests)
    (h : mf.Update options = some ret) (hc : options.ConfigData.length > 0) :
    ret.ConfigMap = some (createConfigMap mf.nspace options.ConfigData) := by
  rcases mf with ⟨ns, sa0, role0, rb0, cm0, ds0, plat, nsp, san⟩
  cases plat <;> cases ns <;> cases sa0 <;> cases role0 <;> cases rb0 <;> cases ds0 <;>
    simp [Manifests.Update, Manifests.Clone, hc] at h <;> subst h <;> rfl

/-- Inversion of Update: with a payload of zero length, the resulting set's
ConfigMap is absent. -/
theorem update_configmap_of_zero (mf : Manifests) (options : UpdateOptions) (ret : Manifests)
    (h : mf.Update options = some ret) (hc : ¬ options.ConfigData.length > 0) :
    ret.ConfigMap = none := by
  rcases mf with ⟨ns, sa0, role0, rb0, cm0, ds0, plat, nsp, san⟩
  cases plat <;> cases ns <;> cases sa0 <;> cases role0 <;> cases rb0 <;> cases ds0 <;>
    simp [Manifests.Update, Manifests.Clone, hc] at h <;> subst h <;> rfl

/-- C9: whenever Update succeeds, an empty config payload leaves the resulting
set's ConfigData absent, and a non-empty payload produces exactly the one
ConfigMap keyed under the fixed file name config.yaml whose stored content is
the supplied string. -/
theorem update_config_gating (mf : Manifests) (options : UpdateOptions) (ret : Manifests)
    (h : mf.Update options = some ret) :
    (options.ConfigData = "" → ret.ConfigMap = none) ∧
    (options.ConfigData ≠ "" →
      ret.ConfigMap =
        some { kind := "ConfigMap", apiVersion := "v1", name := "rte-config",
               nspace := mf.nspace,
               data := [("config.yaml", options.ConfigData)] }) := by
  constructor
  · intro he
    apply update_configmap_of_zero mf options ret h
    rw [he]
    decide
  · intro hne
    have hc : options.ConfigData.length > 0 :=
      (string_length_pos_iff options.ConfigData).mpr hne
    exact update_configmap_of_pos mf options ret h hc

/-- The patched sample set for the non-empty payload. -/
def retW : Manifests :=
  (mfKW.Update { ConfigData := "resources: all" }).getD { plat := Platform.Unknown }

/-- The patched sample set for the empty payload. -/
def retW0 : Manifests := (mfKW.Update {}).getD { plat := Platform.Unknown }

/-- Witness for C9: on the managed sample set, the empty payload yields no
ConfigData and the non-empty payload yields exactly the fixed-keyed ConfigMap. -/
theorem update_config_gating_witness :
    retW.ConfigMap =
      some { kind := "ConfigMap", apiVersion := "v1", name := "rte-config",
             nspace := "tas", data := [("config.yaml", "resources: all")] } ∧
    retW0.ConfigMap = none := by
  have h1 := update_config_gating mfKW { ConfigData := "resources: all" } retW rfl
  have h2 := update_config_gating mfKW {} retW0 rfl
  exact ⟨h1.2 (by decide), h2.1 rfl⟩
